import Mathlib

/-!
Formalisation of the UT ChatBot backend conversation pipeline and
checkpoint codec.  The definitions are shallow embeddings of the Python
source files (App/utils/serializers.py, App/utils/validators.py,
App/app.py and ChatBot/LangGraph_workflow.py); the theorems settle the
specification claims about them.  Bytes are modelled as natural numbers
in the range 0..255 and strings are modelled at the ASCII level.
-/

namespace UTChatBot

/-- Python str.strip at the ASCII level: drop whitespace from both
ends. -/
def pyStrip (s : String) : String :=
  String.mk
    (((s.toList.dropWhile Char.isWhitespace).reverse.dropWhile
        Char.isWhitespace).reverse)

/-- Helper for pySplitSpace: accumulate the current word in reverse. -/
def splitSpaceAux : List Char → List Char → List String
  | [], acc => [String.mk acc.reverse]
  | c :: rest, acc =>
    if c = ' ' then String.mk acc.reverse :: splitSpaceAux rest []
    else splitSpaceAux rest (c :: acc)

/-- Python str.split with the single space separator: splits on each
space and keeps empty fields. -/
def pySplitSpace (s : String) : List String :=
  splitSpaceAux s.toList []

/-- Decoded Python values as produced by msgpack unpacking with the
extension hook applied.  Maps are association lists kept in decode
order. -/
inductive PyVal where
  | none
  | bool (b : Bool)
  | int (n : Int)
  | str (s : String)
  | bytes (bs : List Nat)
  | list (xs : List PyVal)
  | dict (kvs : List (PyVal × PyVal))
  | ext (code : Nat) (payload : List Nat)

/-- Raw msgpack values, before the extension hook has been applied:
extension tags are still opaque (code, payload) pairs. -/
inductive Raw where
  | nil
  | bool (b : Bool)
  | int (n : Int)
  | str (s : String)
  | bin (bs : List Nat)
  | arr (xs : List Raw)
  | map (kvs : List (Raw × Raw))
  | ext (code : Nat) (payload : List Nat)

/-- Split off the first n bytes of a buffer, failing when the buffer is
too short (msgpack raises an unpack error on truncated input). -/
def takeBytes (n : Nat) (l : List Nat) : Option (List Nat × List Nat) :=
  if n ≤ l.length then some (l.take n, l.drop n) else none

/-- Decode a byte sequence as text.  The model covers the ASCII plane,
which is the character set used by the checkpoint payloads. -/
def asciiStr (bs : List Nat) : Option String :=
  if bs.all (· < 128) then some (String.mk (bs.map Char.ofNat)) else none

mutual

/-- Fuel based parser for the msgpack wire subset used by the
checkpoints: positive and negative fixint, fixmap, fixarray, fixstr,
nil, booleans, bin 8, ext 8, uint 8, fixext 1/2/4, str 8.  Returns the
parsed value and the remaining bytes; returns Option.none on malformed
framing.  Every recursive call consumes one unit of fuel. -/
def parseVal : Nat → List Nat → Option (Raw × List Nat)
  | 0, _ => Option.none
  | _ + 1, [] => Option.none
  | fuel + 1, b :: rest =>
    if b ≤ 0x7f then some (.int (Int.ofNat b), rest)
    else if b ≤ 0x8f then parseMapN fuel (b - 0x80) rest
    else if b ≤ 0x9f then parseArrN fuel (b - 0x90) rest
    else if b ≤ 0xbf then
      match takeBytes (b - 0xa0) rest with
      | some (sb, r) =>
        match asciiStr sb with
        | some s => some (.str s, r)
        | Option.none => Option.none
      | Option.none => Option.none
    else if b = 0xc0 then some (.nil, rest)
    else if b = 0xc2 then some (.bool false, rest)
    else if b = 0xc3 then some (.bool true, rest)
    else if b = 0xc4 then
      match rest with
      | n :: r =>
        match takeBytes n r with
        | some (bs, r2) => some (.bin bs, r2)
        | Option.none => Option.none
      | [] => Option.none
    else if b = 0xc7 then
      match rest with
      | n :: c :: r =>
        match takeBytes n r with
        | some (bs, r2) => some (.ext c bs, r2)
        | Option.none => Option.none
      | _ => Option.none
    else if b = 0xcc then
      match rest with
      | n :: r => some (.int (Int.ofNat n), r)
      | [] => Option.none
    else if b = 0xd4 then
      match rest with
      | c :: r =>
        match takeBytes 1 r with
        | some (bs, r2) => some (.ext c bs, r2)
        | Option.none => Option.none
      | [] => Option.none
    else if b = 0xd5 then
      match rest with
      | c :: r =>
        match takeBytes 2 r with
        | some (bs, r2) => some (.ext c bs, r2)
        | Option.none => Option.none
      | [] => Option.none
    else if b = 0xd6 then
      match rest with
      | c :: r =>
        match takeBytes 4 r with
        | some (bs, r2) => some (.ext c bs, r2)
        | Option.none => Option.none
      | [] => Option.none
    else if b = 0xd9 then
      match rest with
      | n :: r =>
        match takeBytes n r with
        | some (sb, r2) =>
          match asciiStr sb with
          | some s => some (.str s, r2)
          | Option.none => Option.none
        | Option.none => Option.none
      | [] => Option.none
    else if 0xe0 ≤ b then some (.int (Int.ofNat b - 256), rest)
    else Option.none

/-- Parse n consecutive msgpack values (the elements of an array). -/
def parseArrN : Nat → Nat → List Nat → Option (Raw × List Nat)
  | 0, _, _ => Option.none
  | _ + 1, 0, input => some (.arr [], input)
  | fuel + 1, n + 1, input =>
    match parseVal fuel input with
    | some (v, r) =>
      match parseArrN fuel n r with
      | some (.arr vs, r2) => some (.arr (v :: vs), r2)
      | _ => Option.none
    | Option.none => Option.none

/-- Parse n consecutive key value pairs (the entries of a map). -/
def parseMapN : Nat → Nat → List Nat → Option (Raw × List Nat)
  | 0, _, _ => Option.none
  | _ + 1, 0, input => some (.map [], input)
  | fuel + 1, n + 1, input =>
    match parseVal fuel input with
    | some (k, r) =>
      match parseVal fuel r with
      | some (v, r2) =>
        match parseMapN fuel n r2 with
        | some (.map kvs, r3) => some (.map ((k, v) :: kvs), r3)
        | _ => Option.none
      | Option.none => Option.none
    | Option.none => Option.none

end

/-- Unpack one complete msgpack object from a buffer, requiring the
whole buffer to be consumed (Python msgpack raises ExtraData on
leftover bytes; the recursive ext call treats that as a failure). -/
def unpackRaw (b : List Nat) : Option Raw :=
  match parseVal (2 * b.length + 2) b with
  | some (v, []) => some v
  | _ => Option.none

/-- The LangChain wrapped object convention from _decode_exttype: a
decoded list of three or more elements whose third element is a dict
degrades to that dict; anything else is returned unchanged. -/
def extractProps (u : PyVal) : PyVal :=
  match u with
  | .list xs =>
    if 3 ≤ xs.length then
      match xs[2]? with
      | Option.some (PyVal.dict kvs) => PyVal.dict kvs
      | _ => u
    else u
  | _ => u

mutual

/-- Application of the CheckpointSerializer._decode_exttype hook to a
raw msgpack value: subtype 5 extensions are recursively unpacked with
the same hook and degraded through extractProps, a failed recursive
unpack yields the raw payload bytes, and unknown subtype codes pass
through as tagged (code, payload) values.  Option.none occurs only on
fuel exhaustion, which the top level call sizes away. -/
def hookRaw : Nat → Raw → Option PyVal
  | 0, _ => Option.none
  | fuel + 1, r =>
    match r with
    | .nil => some .none
    | .bool b => some (.bool b)
    | .int n => some (.int n)
    | .str s => some (.str s)
    | .bin bs => some (.bytes bs)
    | .arr xs =>
      match hookList fuel xs with
      | some vs => some (.list vs)
      | Option.none => Option.none
    | .map kvs =>
      match hookPairs fuel kvs with
      | some ps => some (.dict ps)
      | Option.none => Option.none
    | .ext code payload =>
      if code = 5 then
        match unpackRaw payload with
        | some r2 =>
          match hookRaw fuel r2 with
          | some u => some (extractProps u)
          | Option.none => Option.none
        | Option.none => some (.bytes payload)
      else some (.ext code payload)

/-- Hook application to every element of an array. -/
def hookList : Nat → List Raw → Option (List PyVal)
  | 0, _ => Option.none
  | _ + 1, [] => some []
  | fuel + 1, x :: xs =>
    match hookRaw fuel x, hookList fuel xs with
    | some v, some vs => some (v :: vs)
    | _, _ => Option.none

/-- Hook application to every key and value of a map. -/
def hookPairs : Nat → List (Raw × Raw) → Option (List (PyVal × PyVal))
  | 0, _ => Option.none
  | _ + 1, [] => some []
  | fuel + 1, (k, v) :: kvs =>
    match hookRaw fuel k, hookRaw fuel v, hookPairs fuel kvs with
    | some k2, some v2, some ps => some ((k2, v2) :: ps)
    | _, _, _ => Option.none

end

/-- The typed decode errors of CheckpointSerializer.deserialize,
one constructor per DeserializationError message raised there. -/
inductive DeserErr where
  | emptyData
  | extraData
  | invalidFormat
  | invalidBase64 (msg : String)
  | unsupportedType (t : String)
  | unexpected (msg : String)
deriving DecidableEq

/-- The message each variant carries into DeserializationError. -/
def DeserErr.message : DeserErr → String
  | .emptyData => "Checkpoint data is empty"
  | .extraData => "Extra data in msgpack"
  | .invalidFormat => "Invalid msgpack format"
  | .invalidBase64 m => "Invalid base64 string: " ++ m
  | .unsupportedType t => "Unsupported checkpoint type: " ++ t
  | .unexpected m => "Unexpected error: " ++ m

/-- The shapes a checkpoint blob can arrive in: a boto3 Binary wrapper,
raw bytes or a bytearray, base64 text, or an unsupported type. -/
inductive Blob where
  | binary (b : List Nat)
  | bytes (b : List Nat)
  | b64 (s : String)
  | other (typeName : String)

/-- Value of one base64 alphabet character. -/
def b64charVal (c : Char) : Option Nat :=
  if 'A' ≤ c ∧ c ≤ 'Z' then some (c.toNat - 65)
  else if 'a' ≤ c ∧ c ≤ 'z' then some (c.toNat - 97 + 26)
  else if '0' ≤ c ∧ c ≤ '9' then some (c.toNat - 48 + 52)
  else if c = '+' then some 62
  else if c = '/' then some 63
  else Option.none

/-- Decode base64 characters four at a time.  A quad closed by padding
ends the decode (remaining characters are ignored, as the non strict
binascii decoder does); a dangling partial quad is a padding error. -/
def b64decodeChars : List Char → Option (List Nat)
  | [] => some []
  | a :: b :: c :: d :: rest =>
    match b64charVal a, b64charVal b with
    | some va, some vb =>
      if c = '=' then
        if d = '=' then some [va * 4 + vb / 16] else Option.none
      else
        match b64charVal c with
        | some vc =>
          if d = '=' then some [va * 4 + vb / 16, (vb % 16) * 16 + vc / 4]
          else
            match b64charVal d with
            | some vd =>
              match b64decodeChars rest with
              | some more =>
                some ([va * 4 + vb / 16, (vb % 16) * 16 + vc / 4,
                       (vc % 4) * 64 + vd] ++ more)
              | Option.none => Option.none
            | Option.none => Option.none
        | Option.none => Option.none
    | _, _ => Option.none
  | _ => Option.none

/-- Python base64.b64decode with validate False: characters outside the
alphabet and the padding sign are discarded first, then quads are
decoded; a leftover partial quad raises a padding error. -/
def b64decode (s : String) : Option (List Nat) :=
  b64decodeChars
    (s.toList.filter (fun c => (b64charVal c).isSome || c = '='))

/-- CheckpointSerializer._to_bytes: boto3 Binary wrappers and byte
strings pass through, text is base64 decoded (a base64 failure is a
decode error), anything else is an unsupported type error. -/
def to_bytes : Blob → Except DeserErr (List Nat)
  | .binary b => .ok b
  | .bytes b => .ok b
  | .b64 s =>
    match b64decode s with
    | some bs => .ok bs
    | Option.none => .error (.invalidBase64 "Invalid padding")
  | .other t => .error (.unsupportedType t)

/-- Python msgpack.unpackb with the _decode_exttype hook: parse one
object, raise ExtraData if bytes remain, raise an unpack error on
malformed framing, and apply the hook to the result. -/
def unpackb (raw : List Nat) : Except DeserErr PyVal :=
  match parseVal (2 * raw.length + 2) raw with
  | Option.none => .error .invalidFormat
  | some (v, []) =>
    match hookRaw ((raw.length + 2) * (raw.length + 2)) v with
    | some u => .ok u
    | Option.none => .error (.unexpected "recursion limit exceeded")
  | some (_, _ :: _) => .error .extraData

/-- CheckpointSerializer.deserialize: normalize the blob to bytes,
reject an empty byte sequence with the empty data error before any
unpacking happens, then unpack. -/
def deserialize (blob : Blob) : Except DeserErr PyVal :=
  match to_bytes blob with
  | .error e => .error e
  | .ok raw =>
    if raw.length = 0 then .error .emptyData
    else unpackb raw

/-- Python truthiness of a decoded value: None, False, zero and empty
containers are falsy, everything else is truthy. -/
def pyTruthy : PyVal → Bool
  | .none => false
  | .bool b => b
  | .int n => n ≠ 0
  | .str s => s ≠ ""
  | .bytes bs => ¬ bs.isEmpty
  | .list xs => ¬ xs.isEmpty
  | .dict kvs => ¬ kvs.isEmpty
  | .ext _ _ => true

/-- Python equality of a decoded value against a string literal: only
an equal string compares equal. -/
def isStrEq (v : PyVal) (s : String) : Bool :=
  match v with
  | .str t => t = s
  | _ => false

/-- Python dict.get with a string key over the association list model.
A duplicate key in the wire map would have been overwritten on
construction, so the last matching pair wins. -/
def dictGet (kvs : List (PyVal × PyVal)) (k : String) : Option PyVal :=
  (kvs.reverse.find? (fun kv => isStrEq kv.fst k)).map (·.snd)

mutual

/-- Python repr of a decoded value, at the ASCII level and without
escape sequences, which do not occur in the projected payloads. -/
def pyRepr : PyVal → String
  | .none => "None"
  | .bool true => "True"
  | .bool false => "False"
  | .int n => toString n
  | .str s => "'" ++ s ++ "'"
  | .bytes bs =>
    "b'" ++ String.mk ((bs.filter (· < 128)).map Char.ofNat) ++ "'"
  | .list xs => "[" ++ String.intercalate ", " (pyReprList xs) ++ "]"
  | .dict kvs =>
    "\x7b" ++ String.intercalate ", " (pyReprPairs kvs) ++ "\x7d"
  | .ext code payload =>
    "ExtType(code=" ++ toString code ++ ", data=b'" ++
      String.mk ((payload.filter (· < 128)).map Char.ofNat) ++ "')"

/-- Reprs of the elements of a list. -/
def pyReprList : List PyVal → List String
  | [] => []
  | x :: xs => pyRepr x :: pyReprList xs

/-- Reprs of the pairs of a dict. -/
def pyReprPairs : List (PyVal × PyVal) → List String
  | [] => []
  | (k, v) :: kvs => (pyRepr k ++ ": " ++ pyRepr v) :: pyReprPairs kvs

end

/-- Python str of a decoded value: a string is itself, anything else
coerces through its repr. -/
def pyStr (v : PyVal) : String :=
  match v with
  | .str s => s
  | _ => pyRepr v

/-- Python exceptions that the history projector can hit. -/
inductive PyErr where
  | attributeError
  | typeError
deriving DecidableEq

/-- One display normalized chat message, the dict built by
_parse_message: role, content, id and name. -/
structure ChatMsg where
  role : PyVal
  content : String
  id : PyVal
  name : PyVal

/-- The text parts collected from a structured content list: the text
field, defaulting to the empty string, of every dict element whose type
tag equals the string text. -/
def textParts (items : List PyVal) : List PyVal :=
  items.filterMap fun item =>
    match item with
    | .dict kvs =>
      if isStrEq ((dictGet kvs "type").getD .none) "text" then
        some ((dictGet kvs "text").getD (.str ""))
      else Option.none
    | _ => Option.none

/-- Coercion of one join operand: str.join raises a TypeError when an
operand is not a string. -/
def strOnly (p : PyVal) : Except PyErr String :=
  match p with
  | PyVal.str s => Except.ok s
  | _ => Except.error PyErr.typeError

/-- Python str.join over the collected parts: the empty string when no
part qualifies, a TypeError when a part is not a string. -/
def joinText (parts : List PyVal) : Except PyErr String :=
  if parts.isEmpty then .ok ""
  else
    match parts.mapM strOnly with
    | .ok strs => .ok (String.intercalate " " strs)
    | .error e => .error e

/-- _parse_message: a non dict entry projects to nothing; a dict entry
reads content (default empty string), flattens a structured content
list through its text parts, coerces any other non string content with
str, and produces the role, content, id and name record. -/
def parse_message (msg : PyVal) : Except PyErr (Option ChatMsg) :=
  match msg with
  | .dict kvs =>
    let content0 := (dictGet kvs "content").getD (.str "")
    let contentE : Except PyErr String :=
      match content0 with
      | .list items => joinText (textParts items)
      | .str s => .ok s
      | c => .ok (pyStr c)
    match contentE with
    | .error e => .error e
    | .ok content =>
      .ok (some
        { role := (dictGet kvs "type").getD (.str "unknown")
          content := content
          id := (dictGet kvs "id").getD .none
          name := (dictGet kvs "name").getD .none })
  | _ => .ok none

/-- The per entry loop of extract_messages: entries that raise are
logged and skipped, entries that project to nothing are dropped. -/
def parseMessages : List PyVal → List ChatMsg
  | [] => []
  | m :: rest =>
    match parse_message m with
    | .ok (some cm) => cm :: parseMessages rest
    | _ => parseMessages rest

/-- Python attribute access msgs.get on a value that may not be a
dict: a non dict raises AttributeError. -/
def getMessagesFrom (v : PyVal) : Except PyErr (Option PyVal) :=
  match v with
  | .dict kvs => .ok (dictGet kvs "messages")
  | _ => .error .attributeError

/-- The location chain of extract_messages, with Python or semantics:
each candidate location is evaluated lazily and a falsy result falls
through to the next one; the final default is the empty list. -/
def locateMessages (cp : List (PyVal × PyVal)) : Except PyErr PyVal :=
  match getMessagesFrom ((dictGet cp "channel_values").getD (.dict [])) with
  | .error e => .error e
  | .ok m1 =>
    let v1 := m1.getD .none
    if pyTruthy v1 then .ok v1
    else
      match getMessagesFrom ((dictGet cp "values").getD (.dict [])) with
      | .error e => .error e
      | .ok m2 =>
        let v2 := m2.getD .none
        if pyTruthy v2 then .ok v2
        else
          let v3 := (dictGet cp "messages").getD .none
          if pyTruthy v3 then .ok v3 else .ok (.list [])

/-- extract_messages: locate the message sequence, return the empty
list when it is not a list, and project each entry independently. -/
def extract_messages (cp : List (PyVal × PyVal)) :
    Except PyErr (List ChatMsg) :=
  match locateMessages cp with
  | .error e => .error e
  | .ok raw =>
    match raw with
    | .list msgs => .ok (parseMessages msgs)
    | _ => .ok []

/-- The response body of the history endpoint: message count and the
projected messages. -/
structure HistOut where
  message_count : Nat
  messages : List ChatMsg

/-- The checkpoint projection core of the get_chat_history endpoint,
after validation and ownership checks: deserialize the stored blob,
project the messages, and return them all with their count.  The
commented out truncation in the source leaves max_messages unused.  A
non dict checkpoint or a projection exception is caught by the generic
handler and wrapped as an unexpected deserialization error. -/
def get_chat_history (max_messages : Nat) (blob : Blob) :
    Except DeserErr HistOut :=
  match deserialize blob with
  | .error e => .error e
  | .ok v =>
    match v with
    | .dict kvs =>
      match extract_messages kvs with
      | .ok msgs => .ok { message_count := msgs.length, messages := msgs }
      | .error _ => .error (.unexpected "projection failure")
    | _ => .error (.unexpected "attribute error")

/-- One entry of the per user recency list, with ISO timestamps
modelled as naturals ordered like the wall clock. -/
structure RecencyEntry where
  thread_id : String
  title : String
  created_at : Nat
  updated_at : Nat
deriving DecidableEq

/-- The title derived from the first 8 space separated words of the
triggering message. -/
def title8 (user_message : String) : String :=
  String.intercalate " " ((pySplitSpace user_message).take 8)

/-- The pop and break loop of update_personal_history: remove the first
entry carrying the thread id, returning it and the remaining list. -/
def popFirst (l : List RecencyEntry) (tid : String) :
    Option (RecencyEntry × List RecencyEntry) :=
  match l with
  | [] => Option.none
  | e :: rest =>
    if e.thread_id = tid then some (e, rest)
    else
      match popFirst rest tid with
      | some (e2, rest2) => some (e2, e :: rest2)
      | Option.none => Option.none

/-- The fresh entry appended for a thread seen for the first time. -/
def newEntry (tid msg : String) (now : Nat) : RecencyEntry :=
  { thread_id := tid, title := title8 msg,
    created_at := now, updated_at := now }

/-- The capacity rule of update_personal_history: a list longer than 20
entries is cut to its last 20. -/
def truncate20 (l : List RecencyEntry) : List RecencyEntry :=
  if 20 < l.length then l.drop (l.length - 20) else l

/-- update_personal_history on an existing user record: an entry with
the same thread id is popped, its updated_at refreshed to now and
re-appended last; otherwise a fresh entry is appended; then the list is
truncated to its last 20 entries. -/
def update_personal_history (hist : List RecencyEntry) (tid : String)
    (user_message : String) (now : Nat) : List RecencyEntry :=
  let h :=
    match popFirst hist tid with
    | some (e, rest) => rest ++ [{ e with updated_at := now }]
    | Option.none =>
      hist ++ [{ thread_id := tid, title := title8 user_message,
                 created_at := now, updated_at := now }]
  truncate20 h

/-- The application level errors the chat endpoint can return. -/
inductive AppErr where
  | invalidThreadID (reason : String)
  | databaseError (operation : String)
deriving DecidableEq

/-- ThreadIDValidator character class for the first character. -/
def threadChar0 (c : Char) : Bool :=
  c.isAlphanum || c = '_'

/-- ThreadIDValidator character class for the remaining characters. -/
def threadCharRest (c : Char) : Bool :=
  c.isAlphanum || c = '_' || c = '@' || c = '-'

/-- ThreadIDValidator.validate: reject blank input, strip it, reject
over long input, and match the anchored ASCII pattern. -/
def validate_thread_id (s : String) : Except AppErr String :=
  if pyStrip s = "" then
    .error (.invalidThreadID "thread_id cannot be empty")
  else
    let t := pyStrip s
    if 256 < t.length then
      .error (.invalidThreadID "thread_id exceeds maximum length of 256")
    else
      match t.toList with
      | [] => .error (.invalidThreadID "thread_id cannot be empty")
      | c :: cs =>
        if threadChar0 c ∧ cs.all threadCharRest then .ok t
        else
          .error (.invalidThreadID
            "thread_id can only contain alphanumeric characters, hyphens, and underscores")

/-- The observable outcome of one call of the chat_with_model endpoint:
the personal history record after the call, whether the LangGraph
pipeline was invoked at all, and the response or error returned. -/
structure ChatOutcome where
  hist : Option (List RecencyEntry)
  invoked : Bool
  result : Except AppErr String

/-- chat_with_model, with the durable store state passed explicitly and
the LangGraph invocation abstracted as its outcome: validate the thread
id, then update the personal history (a store failure there raises
DatabaseError to the caller and stops the turn), then invoke the
pipeline; a pipeline exception is caught by the generic handler as
DatabaseError with an unexpected error message. -/
def chat_with_model (histTable : Option (List RecencyEntry)) (now : Nat)
    (thread_id user_message : String) (touchDbOk : Bool)
    (pipeline : Except String String) : ChatOutcome :=
  match validate_thread_id thread_id with
  | .error e => { hist := histTable, invoked := false, result := .error e }
  | .ok tid =>
    if touchDbOk then
      let hist2 : List RecencyEntry :=
        match histTable with
        | some h => update_personal_history h tid user_message now
        | Option.none =>
          [{ thread_id := tid, title := title8 user_message,
             created_at := now, updated_at := now }]
      match pipeline with
      | .error msg =>
        { hist := some hist2, invoked := true,
          result := .error (.databaseError ("Unexpected error: " ++ msg)) }
      | .ok resp =>
        { hist := some hist2, invoked := true, result := .ok resp }
    else
      { hist := histTable, invoked := false,
        result := .error (.databaseError "DynamoDB operation failed: Unknown") }

/-- Role tagged transcript messages of the LangGraph state. -/
inductive PipeMsg where
  | human (content : String)
  | system (content : String)
  | ai (content : String)
deriving DecidableEq

/-- One match returned by the Pinecone index for a query. -/
structure PineMatch where
  id : String
  score : Int
  metadata : List (String × String)
deriving DecidableEq

/-- The dict appended to retrieved_docs for each match. -/
structure RetrievedDoc where
  id : String
  score : Int
  metadata : List (String × String)
deriving DecidableEq

/-- The LangGraph State TypedDict of the workflow.  Every key is
optional (total=False); there is no error field in the schema. -/
structure WorkState where
  query : Option String := Option.none
  campus_list : Option (List String) := Option.none
  query_embedding : Option (List Int) := Option.none
  retrieved_docs : Option (List RetrievedDoc) := Option.none
  full_context_documents : Option String := Option.none
  messages : List PipeMsg := []
deriving DecidableEq

/-- The partial dict a node returns to update the state. -/
structure StateUpdate where
  query : Option String := Option.none
  campus_list : Option (List String) := Option.none
  query_embedding : Option (List Int) := Option.none
  retrieved_docs : Option (List RetrievedDoc) := Option.none
  full_context_documents : Option String := Option.none
  messages : List PipeMsg := []
deriving DecidableEq

/-- What a workflow node returns: either a partial state update dict,
or a SystemError exception object returned as a value, which is how
every failure path in the source reports a problem. -/
inductive NodeResult where
  | update (u : StateUpdate)
  | systemError (msg : String)
deriving DecidableEq

/-- LangGraph applying one node return value to the channel state: a
dict update overwrites the returned keys and the add_messages channel
appends; any non dict return value, such as a returned SystemError
object, makes the invocation raise InvalidUpdateError. -/
def applyResult (s : WorkState) : NodeResult → Except String WorkState
  | .update u =>
    .ok { query := u.query.orElse (fun _ => s.query)
          campus_list := u.campus_list.orElse (fun _ => s.campus_list)
          query_embedding := u.query_embedding.orElse (fun _ => s.query_embedding)
          retrieved_docs := u.retrieved_docs.orElse (fun _ => s.retrieved_docs)
          full_context_documents :=
            u.full_context_documents.orElse (fun _ => s.full_context_documents)
          messages := s.messages ++ u.messages }
  | .systemError msg =>
    .error ("InvalidUpdateError: Expected dict, got SystemError(" ++ msg ++ ")")

/-- Sequential execution of the linear node chain compiled from the
unconditional edges of the graph builder. -/
def runGraph : List (WorkState → NodeResult) → WorkState → Except String WorkState
  | [], s => .ok s
  | n :: rest, s =>
    match applyResult s (n s) with
    | .ok s2 => runGraph rest s2
    | .error e => .error e

/-- The edge list registered on the graph builder.  Every edge is a
plain add_edge call: there is no conditional edge anywhere, so the
successor of a node never depends on the state. -/
def graph_edges : List (String × String) :=
  [("__start__", "checking_query"),
   ("checking_query", "specific_school"),
   ("specific_school", "vectorize_query"),
   ("vectorize_query", "retrive_documents"),
   ("retrive_documents", "prepare_docs"),
   ("prepare_docs", "chatbot"),
   ("chatbot", "__end__")]

/-- The successors a node has in the edge list. -/
def successors (node : String) : List String :=
  (graph_edges.filter (fun e => e.fst = node)).map (·.snd)

/-- The reversed scan of checking_query for the last human message. -/
def lastHuman : List PipeMsg → Option String
  | [] => Option.none
  | m :: rest =>
    match lastHuman rest with
    | some c => some c
    | Option.none =>
      match m with
      | .human c => some c
      | _ => Option.none

/-- checking_query: find the last human message; when there is none or
its content is whitespace only, return a SystemError value; otherwise
set query to the stripped content. -/
def checking_query (s : WorkState) : NodeResult :=
  match lastHuman s.messages with
  | Option.none => .systemError "Please provide a valid query."
  | some c =>
    if pyStrip c = "" then .systemError "Please provide a valid query."
    else .update { query := some (pyStrip c) }

/-- The fixed fourteen campus reference list of retrive_documents. -/
def ALL_CAMPUSES : List String :=
  ["UT_Arlington", "UT_Austin", "UT_Dallas", "UT_El_Paso",
   "UT_Health_Houston", "UT_Health_San_Antonio",
   "UT_Health_Science_Center_Tyler", "UT_MD_Anderson",
   "UT_Medical_Branch_Galveston", "UT_Permian_Basin",
   "UT_Rio_Grande_Valley", "UT_San_Antonio", "UT_Southwestern",
   "UT_Tyler"]

/-- The dict built for one Pinecone match. -/
def toDoc (m : PineMatch) : RetrievedDoc :=
  { id := m.id, score := m.score, metadata := m.metadata }

/-- The per campus query loop of retrive_documents: for each campus in
order, issue one similarity search with the given top k restricted to
that campus and append its matches.  Returns the issued (campus, top k)
queries in order together with the accumulated docs. -/
def retrieveLoop (search : String → Nat → List PineMatch) (topK : Nat) :
    List String → List (String × Nat) × List RetrievedDoc
  | [] => ([], [])
  | c :: cs =>
    let docs := (search c topK).map toDoc
    let (t, ds) := retrieveLoop search topK cs
    ((c, topK) :: t, docs ++ ds)

/-- retrive_documents, with the Pinecone index abstracted as a search
oracle and instrumented with the list of issued queries: a missing or
empty embedding or campus list is a SystemError; a campus list other
than the single sentinel All gets one top 5 search per campus; the
sentinel gets one top 2 search per campus of the fixed reference
list. -/
def retrive_documents (search : String → Nat → List PineMatch)
    (s : WorkState) : List (String × Nat) × NodeResult :=
  let embTruthy :=
    match s.query_embedding with
    | some (_ :: _) => true
    | _ => false
  if !embTruthy then
    ([], .systemError "No query embedding found for document retrieval.")
  else
    match s.campus_list with
    | some (c :: cs) =>
      if c :: cs ≠ ["All"] then
        let (t, ds) := retrieveLoop search 5 (c :: cs)
        (t, .update { retrieved_docs := some ds })
      else
        let (t, ds) := retrieveLoop search 2 ALL_CAMPUSES
        (t, .update { retrieved_docs := some ds })
    | _ =>
      ([], .systemError "No campuses found for document retrieval.")

/-! ### Demonstration inputs used by the claim witnesses -/

/-- Wire bytes of the LangChain style triple [m, c, properties] with
properties mapping content to hi and type to human. -/
def demoPayload : List Nat :=
  [0x93, 0xa1, 109, 0xa1, 99, 0x82,
   0xa7, 99, 111, 110, 116, 101, 110, 116,
   0xa2, 104, 105,
   0xa4, 116, 121, 112, 101,
   0xa5, 104, 117, 109, 97, 110]

/-- The raw parse of demoPayload. -/
def demoRaw : Raw :=
  Raw.arr [Raw.str "m", Raw.str "c",
    Raw.map [(Raw.str "content", Raw.str "hi"),
             (Raw.str "type", Raw.str "human")]]

/-- The hooked elements of demoRaw. -/
def demoList : List PyVal :=
  [PyVal.str "m", PyVal.str "c",
   PyVal.dict [(PyVal.str "content", PyVal.str "hi"),
               (PyVal.str "type", PyVal.str "human")]]

/-- The property map carried by demoPayload. -/
def demoKvs : List (PyVal × PyVal) :=
  [(PyVal.str "content", PyVal.str "hi"),
   (PyVal.str "type", PyVal.str "human")]

/-- A checkpoint whose channel values location holds an empty, hence
falsy, message list while the values location holds one message. -/
def demoCpFalsy : List (PyVal × PyVal) :=
  [(PyVal.str "channel_values",
      PyVal.dict [(PyVal.str "messages", PyVal.list [])]),
   (PyVal.str "values",
      PyVal.dict [(PyVal.str "messages",
        PyVal.list [PyVal.dict [(PyVal.str "type", PyVal.str "human"),
                                (PyVal.str "content", PyVal.str "hi")]])])]

/-- A checkpoint whose channel values location holds one message. -/
def demoCpTruthy : List (PyVal × PyVal) :=
  [(PyVal.str "channel_values",
      PyVal.dict [(PyVal.str "messages",
        PyVal.list [PyVal.dict [(PyVal.str "type", PyVal.str "ai"),
                                (PyVal.str "content", PyVal.str "yo")]])])]

/-- A checkpoint carrying its only message under the top level
messages key, with the two earlier locations absent. -/
def demoCpTop : List (PyVal × PyVal) :=
  [(PyVal.str "messages",
      PyVal.list [PyVal.dict [(PyVal.str "type", PyVal.str "ai"),
                              (PyVal.str "content", PyVal.str "hey")]])]

/-- A checkpoint whose three locations are all present but falsy: an
empty nested message list, a values map without messages, and an empty
string under the top level key. -/
def demoCpAllFalsy : List (PyVal × PyVal) :=
  [(PyVal.str "channel_values",
      PyVal.dict [(PyVal.str "messages", PyVal.list [])]),
   (PyVal.str "values", PyVal.dict []),
   (PyVal.str "messages", PyVal.str "")]

/-- Projection of a located messages value: a list projects through the
per entry loop, anything else yields the empty list. -/
def projectRaw (v : PyVal) : List ChatMsg :=
  match v with
  | .list msgs => parseMessages msgs
  | _ => []

/-- One nesting location of the extract_messages chain fails to supply
a message sequence without raising: the outer key is absent, or it
holds a dict whose messages entry is absent or falsy. -/
def locFalsy (cp : List (PyVal × PyVal)) (k : String) : Prop :=
  dictGet cp k = Option.none ∨
  ∃ kvs, dictGet cp k = some (PyVal.dict kvs) ∧
    pyTruthy ((dictGet kvs "messages").getD PyVal.none) = false

/-- A message dict used by the C7 witness, whose content is a
structured list of two text parts. -/
def demoMsgKvs : List (PyVal × PyVal) :=
  [(PyVal.str "type", PyVal.str "human"),
   (PyVal.str "content",
     PyVal.list [PyVal.dict [(PyVal.str "type", PyVal.str "text"),
                             (PyVal.str "text", PyVal.str "a")],
                 PyVal.dict [(PyVal.str "type", PyVal.str "text"),
                             (PyVal.str "text", PyVal.str "b")]])]

/-- A one match per query search oracle for the retrieval witness. -/
def demoSearch : String → Nat → List PineMatch :=
  fun c k => [{ id := c, score := Int.ofNat k, metadata := [] }]

/-- Wire bytes of a checkpoint map holding one human message hi under
the top level messages key. -/
def demoCheckpointBytes : List Nat :=
  [0x81, 0xa8, 109, 101, 115, 115, 97, 103, 101, 115,
   0x91, 0x82,
   0xa4, 116, 121, 112, 101, 0xa5, 104, 117, 109, 97, 110,
   0xa7, 99, 111, 110, 116, 101, 110, 116, 0xa2, 104, 105]

/-- Twenty distinct prior threads for the C8 witness. -/
def demo20 : List RecencyEntry :=
  (List.range 20).map fun i =>
    { thread_id := String.mk (List.replicate i 'a'), title := "",
      created_at := 0, updated_at := 0 }

/-! ### Claim theorems for the checkpoint codec -/

/-- C3: for every msgpack extension with subtype code 5 whose payload
recursively decodes to an ordered sequence of three or more elements
whose third element is a map, the decoder returns that map in place of
the extension. -/
theorem decode_ext5_returns_properties_map
    (data : List Nat) (r : Raw) (fuel : Nat) (vs : List PyVal)
    (kvs : List (PyVal × PyVal))
    (hparse : unpackRaw data = some r)
    (hhook : hookRaw fuel r = some (PyVal.list vs))
    (hlen : 3 ≤ vs.length)
    (hthird : vs[2]? = some (PyVal.dict kvs)) :
    hookRaw (fuel + 1) (Raw.ext 5 data) = some (PyVal.dict kvs) := by
  have h1 : hookRaw (fuel + 1) (Raw.ext 5 data) =
      match unpackRaw data with
      | some r2 =>
        match hookRaw fuel r2 with
        | some u => some (extractProps u)
        | Option.none => Option.none
      | Option.none => some (PyVal.bytes data) := rfl
  rw [h1, hparse]
  show (match hookRaw fuel r with
        | some u => some (extractProps u)
        | Option.none => Option.none) = some (PyVal.dict kvs)
  rw [hhook]
  simp [extractProps, hthird, hlen]

/-- C3 witness: the subtype 5 payload wrapping [m, c, properties]
decodes to the property map with content hi and type human. -/
theorem decode_ext5_returns_properties_map_witness :
    hookRaw 9 (Raw.ext 5 demoPayload) = some (PyVal.dict demoKvs) :=
  decode_ext5_returns_properties_map demoPayload demoRaw 8 demoList demoKvs
    rfl rfl (by decide) rfl

/-- C4: a subtype 5 extension whose payload fails to recursively decode
yields the raw, still encoded payload bytes in place of the extension,
and deserialize of a checkpoint enclosing such a malformed nested
object still succeeds. -/
theorem decode_ext5_failure_returns_raw_payload :
    (∀ (data : List Nat) (fuel : Nat), unpackRaw data = Option.none →
        hookRaw (fuel + 1) (Raw.ext 5 data) = some (PyVal.bytes data)) ∧
    deserialize (Blob.bytes [0xc7, 1, 5, 0xc1]) =
      Except.ok (PyVal.bytes [0xc1]) := by
  refine ⟨?_, rfl⟩
  intro data fuel h
  simp [hookRaw, h]

/-- C4 witness: the one byte payload 0xc1 is not decodable msgpack, and
the subtype 5 extension carrying it degrades to those raw bytes. -/
theorem decode_ext5_failure_returns_raw_payload_witness :
    unpackRaw [0xc1] = Option.none ∧
    hookRaw 1 (Raw.ext 5 [0xc1]) = some (PyVal.bytes [0xc1]) :=
  ⟨rfl, decode_ext5_failure_returns_raw_payload.1 [0xc1] 0 rfl⟩

/-- C5: every input to deserialize that normalizes to an empty byte
sequence produces exactly the empty data decode error, whose message is
the empty checkpoint message, and not any other variant. -/
theorem deserialize_empty_input_error (blob : Blob)
    (h : to_bytes blob = Except.ok []) :
    deserialize blob = Except.error DeserErr.emptyData ∧
    DeserErr.emptyData.message = "Checkpoint data is empty" := by
  refine ⟨?_, rfl⟩
  simp [deserialize, h]

/-- C5 witness: the empty base64 text normalizes to the empty byte
sequence and deserializes to the empty data error. -/
theorem deserialize_empty_input_error_witness :
    to_bytes (Blob.b64 "") = Except.ok [] ∧
    deserialize (Blob.b64 "") = Except.error DeserErr.emptyData :=
  ⟨rfl, (deserialize_empty_input_error (Blob.b64 "") rfl).1⟩

/-! ### Claim theorems for the history projector -/

/-- A lookup in the empty dict yields nothing. -/
theorem dictGet_nil (k : String) : dictGet [] k = Option.none := rfl

/-- Python None is falsy. -/
theorem pyTruthy_none : pyTruthy PyVal.none = false := rfl

/-- C6 counterexample: on a checkpoint whose first location, the
channel values map, holds a present but empty message list, the
projector does not return that empty list: the falsy value falls
through to the values location and its message is returned. -/
theorem extract_messages_falsy_location_counterexample :
    extract_messages demoCpFalsy =
      Except.ok [{ role := PyVal.str "human", content := "hi",
                   id := PyVal.none, name := PyVal.none }] ∧
    extract_messages demoCpFalsy ≠ Except.ok [] := by
  refine ⟨rfl, ?_⟩
  intro h
  rw [show extract_messages demoCpFalsy =
      Except.ok [{ role := PyVal.str "human", content := "hi",
                   id := PyVal.none, name := PyVal.none }] from rfl] at h
  simp at h

/-- C6 as amended: the projector takes the message sequence from the
first of the three locations, channel values, values, then the top
level messages key, whose value is truthy, skipping a location that is
absent or holds a falsy value; when every location is absent or falsy
it returns the empty list; a non list value projects to the empty
list. -/
theorem extract_messages_first_truthy_location :
    (∀ (cp cv : List (PyVal × PyVal)) (v : PyVal),
       dictGet cp "channel_values" = some (PyVal.dict cv) →
       dictGet cv "messages" = some v → pyTruthy v = true →
       extract_messages cp = Except.ok (projectRaw v)) ∧
    (∀ (cp cv vals : List (PyVal × PyVal)) (v0 v : PyVal),
       dictGet cp "channel_values" = some (PyVal.dict cv) →
       dictGet cv "messages" = some v0 → pyTruthy v0 = false →
       dictGet cp "values" = some (PyVal.dict vals) →
       dictGet vals "messages" = some v → pyTruthy v = true →
       extract_messages cp = Except.ok (projectRaw v)) ∧
    (∀ (cp vals : List (PyVal × PyVal)) (v : PyVal),
       locFalsy cp "channel_values" →
       dictGet cp "values" = some (PyVal.dict vals) →
       dictGet vals "messages" = some v → pyTruthy v = true →
       extract_messages cp = Except.ok (projectRaw v)) ∧
    (∀ (cp : List (PyVal × PyVal)) (v : PyVal),
       locFalsy cp "channel_values" → locFalsy cp "values" →
       dictGet cp "messages" = some v → pyTruthy v = true →
       extract_messages cp = Except.ok (projectRaw v)) ∧
    (∀ cp : List (PyVal × PyVal),
       locFalsy cp "channel_values" → locFalsy cp "values" →
       pyTruthy ((dictGet cp "messages").getD PyVal.none) = false →
       extract_messages cp = Except.ok []) := by
  refine ⟨?_, ?_, ?_, ?_, ?_⟩
  · intro cp cv v h1 h2 h3
    simp [extract_messages, locateMessages, getMessagesFrom, h1, h2, h3]
    cases v <;> simp_all [pyTruthy, projectRaw]
  · intro cp cv vals v0 v h1 h2 h3 h4 h5 h6
    simp [extract_messages, locateMessages, getMessagesFrom,
          h1, h2, h3, h4, h5, h6]
    cases v <;> simp_all [pyTruthy, projectRaw]
  · intro cp vals v h1 h2 h3 h4
    rcases h1 with h1 | ⟨kvs, h1, h1f⟩ <;>
      · simp [extract_messages, locateMessages, getMessagesFrom,
              h1, h2, h3, h4, dictGet_nil, pyTruthy, *]
        cases v <;> simp_all [pyTruthy, projectRaw]
  · intro cp v h1 h2 h3 h4
    rcases h1 with h1 | ⟨kvs, h1, h1f⟩ <;>
      rcases h2 with h2 | ⟨vkvs, h2, h2f⟩ <;>
      · simp [extract_messages, locateMessages, getMessagesFrom,
              h1, h2, h3, h4, dictGet_nil, pyTruthy, *]
        cases v <;> simp_all [pyTruthy, projectRaw]
  · intro cp h1 h2 h3
    rcases h1 with h1 | ⟨kvs, h1, h1f⟩ <;>
      rcases h2 with h2 | ⟨vkvs, h2, h2f⟩ <;>
      simp [extract_messages, locateMessages, getMessagesFrom,
            h1, h2, h3, dictGet_nil, pyTruthy_none, parseMessages, *]

/-- C6 witness: a truthy channel values location wins, a top level
messages key is consulted when the two earlier locations are absent,
and a checkpoint whose three locations are all present but falsy
projects to the empty list. -/
theorem extract_messages_first_truthy_location_witness :
    extract_messages demoCpTruthy =
      Except.ok (projectRaw
        (PyVal.list [PyVal.dict [(PyVal.str "type", PyVal.str "ai"),
                                 (PyVal.str "content", PyVal.str "yo")]])) ∧
    extract_messages demoCpTop =
      Except.ok (projectRaw
        (PyVal.list [PyVal.dict [(PyVal.str "type", PyVal.str "ai"),
                                 (PyVal.str "content", PyVal.str "hey")]])) ∧
    extract_messages demoCpAllFalsy = Except.ok [] :=
  ⟨extract_messages_first_truthy_location.1 demoCpTruthy
    [(PyVal.str "messages",
      PyVal.list [PyVal.dict [(PyVal.str "type", PyVal.str "ai"),
                              (PyVal.str "content", PyVal.str "yo")]])]
    (PyVal.list [PyVal.dict [(PyVal.str "type", PyVal.str "ai"),
                             (PyVal.str "content", PyVal.str "yo")]])
    rfl rfl rfl,
   extract_messages_first_truthy_location.2.2.2.1 demoCpTop
    (PyVal.list [PyVal.dict [(PyVal.str "type", PyVal.str "ai"),
                             (PyVal.str "content", PyVal.str "hey")]])
    (Or.inl rfl) (Or.inl rfl) rfl rfl,
   extract_messages_first_truthy_location.2.2.2.2 demoCpAllFalsy
    (Or.inr ⟨[(PyVal.str "messages", PyVal.list [])], rfl, rfl⟩)
    (Or.inr ⟨[], rfl, rfl⟩) rfl⟩

/-- Mapping strOnly over string values recovers the strings. -/
theorem mapM_strOnly (l : List String) :
    (l.map PyVal.str).mapM strOnly = Except.ok l := by
  induction l with
  | nil => rfl
  | cons s rest ih =>
    simp only [List.map_cons, List.mapM_cons, ih, strOnly]
    rfl

/-- Joining parts that are all strings yields the space separated
concatenation, and the empty string when there is no part. -/
theorem joinText_map_str (strs : List String) :
    joinText (strs.map PyVal.str) =
      Except.ok (String.intercalate " " strs) := by
  cases strs with
  | nil => rfl
  | cons s rest =>
    unfold joinText
    rw [mapM_strOnly]
    rfl

/-- C7: when the content of a message entry is an ordered sequence,
the projected content is the space joined concatenation of the text of
every element tagged text, the empty string when none qualifies; any
other non string content projects through the str coercion; and the
projected role is the type tag of the entry, defaulting to unknown when
the tag is absent. -/
theorem parse_message_content_projection :
    (∀ (kvs : List (PyVal × PyVal)) (items : List PyVal)
        (strs : List String),
       dictGet kvs "content" = some (PyVal.list items) →
       textParts items = strs.map PyVal.str →
       parse_message (PyVal.dict kvs) =
         Except.ok (some
           { role := (dictGet kvs "type").getD (PyVal.str "unknown")
             content := String.intercalate " " strs
             id := (dictGet kvs "id").getD PyVal.none
             name := (dictGet kvs "name").getD PyVal.none })) ∧
    (∀ (kvs : List (PyVal × PyVal)) (c : PyVal),
       dictGet kvs "content" = some c →
       (∀ s, c ≠ PyVal.str s) → (∀ xs, c ≠ PyVal.list xs) →
       parse_message (PyVal.dict kvs) =
         Except.ok (some
           { role := (dictGet kvs "type").getD (PyVal.str "unknown")
             content := pyStr c
             id := (dictGet kvs "id").getD PyVal.none
             name := (dictGet kvs "name").getD PyVal.none })) ∧
    (∀ (kvs : List (PyVal × PyVal)) (s : String),
       dictGet kvs "type" = Option.none →
       dictGet kvs "content" = some (PyVal.str s) →
       parse_message (PyVal.dict kvs) =
         Except.ok (some
           { role := PyVal.str "unknown"
             content := s
             id := (dictGet kvs "id").getD PyVal.none
             name := (dictGet kvs "name").getD PyVal.none })) := by
  refine ⟨?_, ?_, ?_⟩
  · intro kvs items strs h1 h2
    simp [parse_message, h1, h2, joinText_map_str]
  · intro kvs c h1 hs hl
    cases c <;>
      first
      | exact absurd rfl (hs _)
      | exact absurd rfl (hl _)
      | simp [parse_message, h1, pyStr]
  · intro kvs s h1 h2
    simp [parse_message, h1, h2]

/-- C7 witness: a message entry whose content has two text parts a and
b projects to the content a b with role human. -/
theorem parse_message_content_projection_witness :
    parse_message (PyVal.dict demoMsgKvs) =
      Except.ok (some
        { role := PyVal.str "human", content := "a b",
          id := PyVal.none, name := PyVal.none }) :=
  parse_message_content_projection.1 demoMsgKvs
    [PyVal.dict [(PyVal.str "type", PyVal.str "text"),
                 (PyVal.str "text", PyVal.str "a")],
     PyVal.dict [(PyVal.str "type", PyVal.str "text"),
                 (PyVal.str "text", PyVal.str "b")]]
    ["a", "b"] rfl rfl

/-! ### Claim theorems for the retrieval stage -/

/-- The query loop issues one (campus, top k) search per campus in
order and returns the concatenation of the per campus results. -/
theorem retrieveLoop_eq (search : String → Nat → List PineMatch)
    (topK : Nat) (cs : List String) :
    retrieveLoop search topK cs =
      (cs.map (fun c => (c, topK)),
       cs.flatMap (fun c => (search c topK).map toDoc)) := by
  induction cs with
  | nil => rfl
  | cons c rest ih => simp [retrieveLoop, ih]

/-- C2: when retrieval runs with the sentinel scope All it issues
exactly one top 2 search per campus of the fixed fourteen campus
reference list; with any other non empty scope it issues exactly one
top 5 search per campus in scope; either way retrieved_docs becomes the
concatenation of the per campus results in scope order. -/
theorem retrive_documents_search_plan :
    (∀ (search : String → Nat → List PineMatch) (s : WorkState)
        (emb : List Int),
       s.query_embedding = some emb → emb ≠ [] →
       s.campus_list = some ["All"] →
       retrive_documents search s =
         (ALL_CAMPUSES.map (fun c => (c, 2)),
          NodeResult.update
            { retrieved_docs :=
                some (ALL_CAMPUSES.flatMap fun c => (search c 2).map toDoc) })) ∧
    (∀ (search : String → Nat → List PineMatch) (s : WorkState)
        (emb : List Int) (cs : List String),
       s.query_embedding = some emb → emb ≠ [] →
       s.campus_list = some cs → cs ≠ [] → cs ≠ ["All"] →
       retrive_documents search s =
         (cs.map (fun c => (c, 5)),
          NodeResult.update
            { retrieved_docs :=
                some (cs.flatMap fun c => (search c 5).map toDoc) })) := by
  constructor
  · intro search s emb h1 h2 h3
    cases emb with
    | nil => exact absurd rfl h2
    | cons e es =>
      simp [retrive_documents, h1, h3, retrieveLoop_eq]
  · intro search s emb cs h1 h2 h3 h4 h5
    cases emb with
    | nil => exact absurd rfl h2
    | cons e es =>
      cases cs with
      | nil => exact absurd rfl h4
      | cons c cs2 =>
        simp [retrive_documents, h1, h3, retrieveLoop_eq, h5]

/-- C2 witness: with the sentinel scope the plan is one top 2 search
per reference campus. -/
theorem retrive_documents_search_plan_witness :
    retrive_documents demoSearch
      { query_embedding := some [1], campus_list := some ["All"] } =
      (ALL_CAMPUSES.map (fun c => (c, 2)),
       NodeResult.update
         { retrieved_docs :=
             some (ALL_CAMPUSES.flatMap fun c => (demoSearch c 2).map toDoc) }) :=
  retrive_documents_search_plan.1 demoSearch
    { query_embedding := some [1], campus_list := some ["All"] }
    [1] rfl (by decide) rfl

/-! ### Claim theorems for the history endpoint -/

/-- C10: the history read never applies the truncation its max
messages parameter suggests: any two parameter values produce identical
results, and on a decodable checkpoint the full projected list is
returned with its length as the message count. -/
theorem get_chat_history_ignores_max_messages :
    (∀ (blob : Blob) (m1 m2 : Nat),
       get_chat_history m1 blob = get_chat_history m2 blob) ∧
    (∀ (blob : Blob) (m : Nat) (kvs : List (PyVal × PyVal))
        (msgs : List ChatMsg),
       deserialize blob = Except.ok (PyVal.dict kvs) →
       extract_messages kvs = Except.ok msgs →
       get_chat_history m blob =
         Except.ok { message_count := msgs.length, messages := msgs }) := by
  constructor
  · intro blob m1 m2
    rfl
  · intro blob m kvs msgs h1 h2
    simp [get_chat_history, h1, h2]

/-- C10 witness: the demonstration checkpoint projects its single
message whatever the parameter value. -/
theorem get_chat_history_ignores_max_messages_witness :
    get_chat_history 0 (Blob.bytes demoCheckpointBytes) =
      Except.ok { message_count := 1, messages :=
        [{ role := PyVal.str "human", content := "hi",
           id := PyVal.none, name := PyVal.none }] } :=
  get_chat_history_ignores_max_messages.2 (Blob.bytes demoCheckpointBytes) 0
    [(PyVal.str "messages", PyVal.list [PyVal.dict
        [(PyVal.str "type", PyVal.str "human"),
         (PyVal.str "content", PyVal.str "hi")]])]
    [{ role := PyVal.str "human", content := "hi",
       id := PyVal.none, name := PyVal.none }] rfl rfl

/-! ### Claim theorems for the recency index -/

/-- The popped entry carries the touched thread id. -/
theorem popFirst_thread (tid : String) :
    ∀ (l : List RecencyEntry) (e : RecencyEntry)
      (rest : List RecencyEntry),
      popFirst l tid = some (e, rest) → e.thread_id = tid := by
  intro l
  induction l with
  | nil => intro e rest h; simp [popFirst] at h
  | cons x xs ih =>
    intro e rest h
    by_cases hx : x.thread_id = tid
    · simp only [popFirst, if_pos hx] at h
      simp only [Option.some.injEq, Prod.mk.injEq] at h
      obtain ⟨h1, -⟩ := h
      exact h1 ▸ hx
    · simp only [popFirst, if_neg hx] at h
      cases hrec : popFirst xs tid with
      | none => rw [hrec] at h; simp at h
      | some p =>
        obtain ⟨e2, rest2⟩ := p
        rw [hrec] at h
        simp at h
        obtain ⟨h1, -⟩ := h
        exact h1 ▸ ih e2 rest2 hrec

/-- Popping an entry shortens the list by exactly one. -/
theorem popFirst_length (tid : String) :
    ∀ (l : List RecencyEntry) (e : RecencyEntry)
      (rest : List RecencyEntry),
      popFirst l tid = some (e, rest) → rest.length + 1 = l.length := by
  intro l
  induction l with
  | nil => intro e rest h; simp [popFirst] at h
  | cons x xs ih =>
    intro e rest h
    by_cases hx : x.thread_id = tid
    · simp only [popFirst, if_pos hx] at h
      simp only [Option.some.injEq, Prod.mk.injEq] at h
      obtain ⟨-, h2⟩ := h
      simp [← h2]
    · simp only [popFirst, if_neg hx] at h
      cases hrec : popFirst xs tid with
      | none => rw [hrec] at h; simp at h
      | some p =>
        obtain ⟨e2, rest2⟩ := p
        rw [hrec] at h
        simp at h
        obtain ⟨-, h2⟩ := h
        have := ih e2 rest2 hrec
        rw [← h2]
        simp
        omega

/-- When no entry carries the thread id, nothing is popped. -/
theorem popFirst_eq_none (tid : String) :
    ∀ l : List RecencyEntry, (∀ e ∈ l, e.thread_id ≠ tid) →
      popFirst l tid = Option.none := by
  intro l
  induction l with
  | nil => intro h; rfl
  | cons x xs ih =>
    intro h
    have hx : x.thread_id ≠ tid := h x (List.mem_cons_self x xs)
    simp only [popFirst, if_neg hx]
    rw [ih (fun e he => h e (List.mem_cons_of_mem x he))]

/-- The length of a truncated list. -/
theorem truncate20_length (l : List RecencyEntry) :
    (truncate20 l).length = if 20 < l.length then 20 else l.length := by
  by_cases h : 20 < l.length <;> simp [truncate20, h] <;> omega

/-- A list within capacity is left untouched by truncation. -/
theorem truncate20_of_le (l : List RecencyEntry) (h : l.length ≤ 20) :
    truncate20 l = l := by
  unfold truncate20
  rw [if_neg (by omega)]

/-- Truncation from the front preserves the last element of a
just appended list. -/
theorem truncate20_concat_last (l : List RecencyEntry)
    (x : RecencyEntry) :
    (truncate20 (l ++ [x])).getLast? = some x := by
  unfold truncate20
  by_cases h : 20 < (l ++ [x]).length
  · rw [if_pos h]
    have hle : (l ++ [x]).length - 20 ≤ l.length := by
      simp only [List.length_append, List.length_cons, List.length_nil] at h ⊢
      omega
    rw [List.drop_append_of_le_length hle, List.getLast?_concat]
  · rw [if_neg h, List.getLast?_concat]

/-- C8: after every touch the entry of the touched thread is the last
element; touching a present thread keeps the length and refreshes its
updated_at to a value at least its previous one; the list never grows
beyond 20 entries; and a twenty first distinct thread evicts the
least recently touched front entry. -/
theorem update_personal_history_recency_invariants :
    (∀ (hist : List RecencyEntry) (tid msg : String) (now : Nat),
       ∃ e, (update_personal_history hist tid msg now).getLast? = some e ∧
         e.thread_id = tid ∧ e.updated_at = now) ∧
    (∀ (hist : List RecencyEntry) (tid msg : String) (now : Nat)
        (e : RecencyEntry) (rest : List RecencyEntry),
       hist.length ≤ 20 → popFirst hist tid = some (e, rest) →
       (update_personal_history hist tid msg now).length = hist.length) ∧
    (∀ (hist : List RecencyEntry) (tid msg : String) (now : Nat)
        (e : RecencyEntry) (rest : List RecencyEntry),
       popFirst hist tid = some (e, rest) → e.updated_at ≤ now →
       ∃ e2,
         (update_personal_history hist tid msg now).getLast? = some e2 ∧
         e2.thread_id = tid ∧ e.updated_at ≤ e2.updated_at) ∧
    (∀ (hist : List RecencyEntry) (tid msg : String) (now : Nat),
       hist.length ≤ 20 →
       (update_personal_history hist tid msg now).length ≤ 20) ∧
    (∀ (hist : List RecencyEntry) (tid msg : String) (now : Nat),
       hist.length = 20 → (∀ e ∈ hist, e.thread_id ≠ tid) →
       update_personal_history hist tid msg now =
         hist.drop 1 ++ [{ thread_id := tid, title := title8 msg,
                           created_at := now, updated_at := now }]) := by
  refine ⟨?_, ?_, ?_, ?_, ?_⟩
  · intro hist tid msg now
    unfold update_personal_history
    cases hp : popFirst hist tid with
    | none => exact ⟨_, truncate20_concat_last hist _, rfl, rfl⟩
    | some p =>
      obtain ⟨e, rest⟩ := p
      exact ⟨{ e with updated_at := now }, truncate20_concat_last rest _,
        popFirst_thread tid hist e rest hp, rfl⟩
  · intro hist tid msg now e rest hlen hp
    have hr : rest.length + 1 = hist.length := popFirst_length tid hist e rest hp
    unfold update_personal_history
    rw [hp]
    show (truncate20 (rest ++ [{ e with updated_at := now }])).length =
      hist.length
    rw [truncate20_of_le _ (by simp; omega)]
    simp
    omega
  · intro hist tid msg now e rest hp hle
    unfold update_personal_history
    rw [hp]
    exact ⟨{ e with updated_at := now }, truncate20_concat_last rest _,
      popFirst_thread tid hist e rest hp, hle⟩
  · intro hist tid msg now hlen
    unfold update_personal_history
    cases hp : popFirst hist tid with
    | none =>
      rw [truncate20_length]
      split <;> omega
    | some p =>
      obtain ⟨e, rest⟩ := p
      rw [truncate20_length]
      split <;> omega
  · intro hist tid msg now hlen hall
    unfold update_personal_history
    rw [popFirst_eq_none tid hist hall]
    show truncate20 (hist ++ [newEntry tid msg now]) =
      hist.drop 1 ++ [newEntry tid msg now]
    unfold truncate20
    rw [if_pos (by simp; omega)]
    have h1 : (hist ++ [newEntry tid msg now]).length - 20 = 1 := by
      simp
      omega
    rw [h1, List.drop_append_of_le_length (by omega)]

/-- C8 witness: a twenty first distinct thread evicts the front entry
and lands at the back. -/
theorem update_personal_history_recency_invariants_witness :
    demo20.length = 20 ∧
    update_personal_history demo20 "fresh" "hello there" 99 =
      demo20.drop 1 ++
        [{ thread_id := "fresh", title := title8 "hello there",
           created_at := 99, updated_at := 99 }] :=
  ⟨rfl, update_personal_history_recency_invariants.2.2.2.2 demo20 "fresh"
    "hello there" 99 rfl (by decide)⟩

/-! ### Claim theorems for the chat endpoint and the pipeline -/

/-- C9 counterexample: on a turn whose pipeline fails the recency list
has already been changed, because the touch runs before the invocation,
and a failing touch is itself propagated to the caller as a
DatabaseError with the pipeline never invoked. -/
theorem touch_before_pipeline_counterexample :
    (chat_with_model (some []) 1 "t1" "hi" true
        (Except.error "boom")).result =
      Except.error (AppErr.databaseError "Unexpected error: boom") ∧
    (chat_with_model (some []) 1 "t1" "hi" true
        (Except.error "boom")).hist ≠ some [] ∧
    (chat_with_model (some []) 1 "t1" "hi" false
        (Except.ok "fine")).result =
      Except.error
        (AppErr.databaseError "DynamoDB operation failed: Unknown") ∧
    (chat_with_model (some []) 1 "t1" "hi" false
        (Except.ok "fine")).invoked = false := by
  refine ⟨rfl, ?_, rfl, rfl⟩
  intro h
  rw [show (chat_with_model (some []) 1 "t1" "hi" true
      (Except.error "boom")).hist = some [newEntry "t1" "hi" 1] from rfl] at h
  simp at h

/-- C9 as amended: the recency touch executes once per turn attempt,
before the pipeline is invoked: after a valid thread id and a healthy
store the recency list is the touched list whatever the pipeline
outcome, and a failing touch propagates a DatabaseError to the caller
with the pipeline never invoked. -/
theorem touch_runs_before_pipeline :
    (∀ (hist : List RecencyEntry) (now : Nat) (tid msg t : String)
        (pipeline : Except String String),
       validate_thread_id tid = Except.ok t →
       (chat_with_model (some hist) now tid msg true pipeline).hist =
         some (update_personal_history hist t msg now)) ∧
    (∀ (histTable : Option (List RecencyEntry)) (now : Nat)
        (tid msg t : String) (pipeline : Except String String),
       validate_thread_id tid = Except.ok t →
       chat_with_model histTable now tid msg false pipeline =
         { hist := histTable, invoked := false,
           result := Except.error
             (AppErr.databaseError "DynamoDB operation failed: Unknown") }) := by
  constructor
  · intro hist now tid msg t pipeline hv
    unfold chat_with_model
    rw [hv]
    cases pipeline <;> rfl
  · intro histTable now tid msg t pipeline hv
    unfold chat_with_model
    rw [hv]
    rfl

/-- C9 witness: on a successful concrete turn the recency list is the
touched list. -/
theorem touch_runs_before_pipeline_witness :
    (chat_with_model (some []) 0 "t1" "m" true (Except.ok "r")).hist =
      some (update_personal_history [] "t1" "m" 0) :=
  touch_runs_before_pipeline.1 [] 0 "t1" "m" "t1" (Except.ok "r") rfl

/-- C1: evidence that the halt and record contract is not implemented:
on a turn whose only human message is blank, checking_query returns a
SystemError exception object instead of recording an error in the state
(the State schema has no error field at all), LangGraph rejects that
non dict return value so the whole invocation aborts with
InvalidUpdateError whatever stages follow, and the edge leaving
checking_query is unconditional, so no error aware routing exists that
could skip the remaining stages while persisting the partial state. -/
theorem checking_query_failure_aborts_graph :
    checking_query { messages := [PipeMsg.human " "] } =
      NodeResult.systemError "Please provide a valid query." ∧
    (∀ rest : List (WorkState → NodeResult),
       runGraph (checking_query :: rest)
           { messages := [PipeMsg.human " "] } =
         Except.error
           "InvalidUpdateError: Expected dict, got SystemError(Please provide a valid query.)") ∧
    successors "checking_query" = ["specific_school"] := by
  refine ⟨rfl, ?_, rfl⟩
  intro rest
  rfl

end UTChatBot
